import Mathlib

/-!
Verification of the orchestration engine of the SwissModel batch
processor (`SM_batch_processor.py`): a shallow embedding of its logic
into Lean, with theorems settling the specified properties.  Network
calls and filesystem effects are made explicit: each HTTP call becomes
an oracle argument giving the outcome of that call, and the output tree
becomes an explicit filesystem state threaded through the download
routine.
-/

namespace SMB

/-- Character class `[A-Za-z0-9_.-]` used by `sanitize_filename`. -/
def allowedChar (c : Char) : Bool :=
  c.isAlpha || c.isDigit || c == '_' || c == '.' || c == '-'

/-- Embedding of `sanitize_filename`: `re.sub` replaces every character
outside the allowed class with an underscore. -/
def sanitize_filename (filename : String) : String :=
  String.mk (filename.data.map (fun c => if allowedChar c then c else '_'))

/-- Maximal run of decimal digits at the head of the list: the group a
greedy `(\d+)` captures once its starting position is fixed. -/
def digitRun : List Char → List Char
  | [] => []
  | c :: cs => if c.isDigit then c :: digitRun cs else []

/-- Leftmost-match scan of `re.search` for the pattern `cluster_(\d+)`:
the literal `cluster_` followed by at least one digit.  Returns the
captured digit run at the leftmost position where the pattern matches. -/
def clusterSearch : List Char → Option (List Char)
  | [] => none
  | c :: cs =>
    if "cluster_".data.isPrefixOf (c :: cs) && !(digitRun (List.drop 8 (c :: cs))).isEmpty then
      some (digitRun (List.drop 8 (c :: cs)))
    else clusterSearch cs

/-- Embedding of the cluster-number extraction of
`_download_and_extract`: the captured digit run, or the sentinel. -/
def cluster_number (seq_id : String) : String :=
  match clusterSearch seq_id.data with
  | some run => String.mk run
  | none => "unknown"

/-- The pattern `cluster_` followed by at least one digit matches at
position `i` of the character list. -/
def matchAt (l : List Char) (i : Nat) : Bool :=
  "cluster_".data.isPrefixOf (List.drop i l) && !(digitRun (List.drop (i + 8) l)).isEmpty

/-- Decimal digit character for `n % 10`, as produced by decimal
formatting of a natural number. -/
def digitChar (n : Nat) : Char :=
  Char.ofNat (48 + n % 10)

/-- Numeric value of a decimal digit character. -/
def digitVal (c : Char) : Nat :=
  c.toNat - 48

/-- Decimal digit characters of `n`, most significant first; `fuel`
bounds the recursion, and any `fuel > n` gives the true rendering. -/
def natDigitsCore : Nat → Nat → List Char
  | 0, _ => []
  | fuel + 1, n =>
    if n < 10 then [digitChar n] else natDigitsCore fuel (n / 10) ++ [digitChar (n % 10)]

/-- Decimal rendering of a natural number (Python `str(n)`). -/
def natDigits (n : Nat) : List Char :=
  natDigitsCore (n + 1) n

/-- Python format `f"{n:03}"`: the decimal rendering zero-padded on the
left to width 3. -/
def pad3 (n : Nat) : String :=
  String.mk (List.replicate (3 - (natDigits n).length) '0' ++ natDigits n)

/-- Value of a digit string read in base 10. -/
def digitsVal (l : List Char) : Nat :=
  l.foldl (fun a c => a * 10 + digitVal c) 0

/-- One entry of a completed manifest: its two optional artifact URLs. -/
structure ModelEntry where
  modelcif_url : Option String
  coordinates_url : Option String
  deriving DecidableEq

/-- One element of `model_data` in `fetch_model_results`:
the tuple `(seq_id, url, model_number, file_type)`. -/
structure Ref where
  seq_id : String
  url : String
  model_number : Nat
  file_type : String
  deriving DecidableEq

/-- The enumeration loop of `fetch_model_results`
(`enumerate(models, start=1)` with the two membership tests). -/
def fetchLoop (seq_id : String) : Nat → List ModelEntry → List Ref
  | _, [] => []
  | i, m :: ms =>
    (match m.modelcif_url with
     | some u => [⟨seq_id, u, i, "modelcif"⟩]
     | none => []) ++
    (match m.coordinates_url with
     | some u => [⟨seq_id, u, i, "coordinates"⟩]
     | none => []) ++
    fetchLoop seq_id (i + 1) ms

/-- Embedding of `fetch_model_results`: the list of artifact refs built
from a completed manifest, in source order. -/
def fetch_model_results (seq_id : String) (models : List ModelEntry) : List Ref :=
  fetchLoop seq_id 1 models

/-- Kind subfolder and file extension chosen from `file_type`
(`"modelcif"` gives CIF, anything else gives PDB, as in the source). -/
def sub_folder_ext (file_type : String) : String × String :=
  if file_type = "modelcif" then ("CIF", ".cif") else ("PDB", ".pdb")

/-- Embedding of `os.path.join(out_dir, f"cluster_{N}_model", sub_folder)`. -/
def cluster_folder (out_dir seq_id file_type : String) : String :=
  out_dir ++ "/" ++ ("cluster_" ++ cluster_number seq_id ++ "_model") ++ "/" ++
    (sub_folder_ext file_type).1

/-- The sanitized basename built in `_download_and_extract`. -/
def safe_filename (seq_id : String) (model_number : Nat) (file_type : String) : String :=
  sanitize_filename
    ("cluster_" ++ cluster_number seq_id ++ "_model_" ++ pad3 model_number ++
      (sub_folder_ext file_type).2)

/-- Full destination path of one artifact download. -/
def dest_path (out_dir seq_id : String) (model_number : Nat) (file_type : String) : String :=
  cluster_folder out_dir seq_id file_type ++ "/" ++
    safe_filename seq_id model_number file_type

/-- Embedding of Python `str.endswith`. -/
def ends_with (s t : String) : Bool :=
  t.data.isSuffixOf s.data

/-- Core of `str.replace`: replace the non-overlapping occurrences of
`pat` left to right; `fuel` bounds the recursion and the input length
suffices. -/
def replaceCore (pat repl : List Char) : Nat → List Char → List Char
  | 0, l => l
  | _ + 1, [] => []
  | fuel + 1, c :: cs =>
    if pat ≠ [] ∧ pat.isPrefixOf (c :: cs) then
      repl ++ replaceCore pat repl fuel (List.drop pat.length (c :: cs))
    else c :: replaceCore pat repl fuel cs

/-- Embedding of Python `str.replace` (all occurrences). -/
def string_replace (s pat repl : String) : String :=
  String.mk (replaceCore pat.data repl.data s.data.length s.data)

/-- Filesystem model: the created directories and a map from path to
file contents (bytes as naturals). -/
structure FS where
  dirs : List String
  files : String → Option (List Nat)

/-- Embedding of the effectful body of `_download_and_extract`.
`outcome` is the HTTP download: `none` when `requests.get` or
`raise_for_status` raises `RequestException`, `some content` otherwise;
`gunzip` abstracts the gzip library.  The statement order mirrors the
source: `os.makedirs` runs first, then the download, then the write to
`filename`, then the decompression branch keyed on the local
`filename` ending in `.gz`, which removes the compressed file. -/
def download_and_extract (gunzip : List Nat → List Nat) (out_dir : String)
    (fs : FS) (r : Ref) (outcome : Option (List Nat)) : FS :=
  let folder := cluster_folder out_dir r.seq_id r.file_type
  let filename := dest_path out_dir r.seq_id r.model_number r.file_type
  let fs1 : FS := ⟨folder :: fs.dirs, fs.files⟩
  match outcome with
  | none => fs1
  | some content =>
    let fs2 : FS := ⟨fs1.dirs, fun p => if p = filename then some content else fs1.files p⟩
    if ends_with filename ".gz" then
      let extracted := string_replace filename ".gz" ""
      let fs3 : FS :=
        ⟨fs2.dirs, fun p => if p = extracted then some (gunzip content) else fs2.files p⟩
      ⟨fs3.dirs, fun p => if p = filename then none else fs3.files p⟩
    else fs2

/-- Remote status JSON: the optional status string and the models list. -/
structure StatusJson where
  status? : Option String
  models : List ModelEntry
  deriving DecidableEq

/-- Embedding of `status_json.get("status", "UNKNOWN")`. -/
def get_status (j : StatusJson) : String :=
  j.status?.getD "UNKNOWN"

/-- Outcome of one poll of the status endpoint: a transport failure
(`requests.RequestException`) or a response body. -/
inductive PollResult
  | exception
  | response (json : StatusJson)
  deriving DecidableEq

/-- Embedding of the polling loop of `monitor_job_status` over the
successive poll outcomes: `some r` when the loop returns `r` within the
given polls, `none` when it is still polling after consuming them all. -/
def monitor_job_status : List PollResult → Option (Option StatusJson)
  | [] => none
  | PollResult.exception :: rest => monitor_job_status rest
  | PollResult.response j :: rest =>
    if get_status j = "COMPLETED" ∨ get_status j = "FAILED" then
      some (if get_status j = "COMPLETED" then some j else none)
    else monitor_job_status rest

/-- Outcome of one `requests.post` call in `submit_request`: an HTTP
429 status, a `RequestException` (connection error, timeout, or a
non-2xx status raised by `raise_for_status`), or a 2xx JSON body. -/
inductive AttemptResult
  | rateLimited
  | exception
  | ok (project_id : Option String)
  deriving DecidableEq

/-- Python return value of `submit_request`: the tuple
`(seq_id, project_id)`, or the implicit `None` produced when control
falls off the end of the function after the loop exits. -/
inductive SubmitReturn
  | tuple (seq_id : String) (project_id : Option String)
  | pyNone
  deriving DecidableEq

/-- The retry loop of `submit_request`: `resp a` is the outcome of the
POST on attempt `a`; the second component of the result is the list of
back-off sleeps taken, in seconds.  `fuel` bounds the recursion and is
at least the number of remaining iterations at the entry point. -/
def submitLoop (seq_id : String) (resp : Nat → AttemptResult) :
    Nat → Nat → SubmitReturn × List Nat
  | _, 0 => (SubmitReturn.pyNone, [])
  | attempt, fuel + 1 =>
    if attempt ≤ 5 then
      match resp attempt with
      | AttemptResult.rateLimited =>
        let rest := submitLoop seq_id resp (attempt + 1) fuel
        (rest.1, attempt * 10 :: rest.2)
      | AttemptResult.exception => (SubmitReturn.tuple seq_id none, [])
      | AttemptResult.ok pid => (SubmitReturn.tuple seq_id pid, [])
    else (SubmitReturn.pyNone, [])

/-- Embedding of `submit_request`: the loop entered at attempt 1; the
guard `attempt <= 5` allows at most 5 iterations, so fuel 6 is exact. -/
def submit_request (seq_id : String) (resp : Nat → AttemptResult) : SubmitReturn × List Nat :=
  submitLoop seq_id resp 1 6

/-- The `as_completed` loop of `process_sequences`, folded over the
future results in completion order: the tuple unpacking
`seq_id, project_id = future.result()` raises a `TypeError` when the
result is `None`, aborting the loop; otherwise the body runs and the
loop continues.  Collects the identifiers it processed. -/
def process_loop : List SubmitReturn → Except String (List String)
  | [] => Except.ok []
  | SubmitReturn.tuple s _ :: rest => (process_loop rest).map (fun l => s :: l)
  | SubmitReturn.pyNone :: _ =>
    Except.error "TypeError: cannot unpack non-iterable NoneType object"

/-- The three pipeline stages of one sequence. -/
inductive Stage
  | submit (seq_id : String)
  | monitor (seq_id : String)
  | fetch (seq_id : String)
  deriving DecidableEq

/-- Stages performed by the callable handed to the worker pool in
`process_sequences`: `executor.submit(self.submit_request, seq_id, seq)`
runs only the submission. -/
def pooled_task_stages (seq_id : String) : List Stage :=
  [Stage.submit seq_id]

/-- Stages executed by the main thread inside the `as_completed` loop
of `process_sequences`, in completion order: for each future result
`(seq_id, project_id, completed)` the loop body calls
`monitor_job_status` when a project id is present, then
`fetch_model_results` when the monitor reports completion, all
sequentially in the one orchestrator thread. -/
def main_loop_trace : List (String × Option String × Bool) → List Stage
  | [] => []
  | (s, pid, completed) :: rest =>
    (match pid with
     | none => []
     | some _ => Stage.monitor s :: (if completed then [Stage.fetch s] else [])) ++
    main_loop_trace rest

/-! ### String and list helpers -/

theorem data_append (s t : String) : (s ++ t).data = s.data ++ t.data := rfl

theorem str_ext {s t : String} (h : s.data = t.data) : s = t := by
  cases s; cases t; exact congrArg String.mk h

theorem str_mk_inj {d e : List Char} (h : String.mk d = String.mk e) : d = e :=
  congrArg String.data h

theorem map_id_of_mem {l : List Char} {f : Char → Char} (h : ∀ c ∈ l, f c = c) :
    l.map f = l := by
  induction l with
  | nil => rfl
  | cons c cs ih =>
    simp only [List.map_cons, h c (List.mem_cons_self c cs)]
    rw [ih (fun x hx => h x (List.mem_cons_of_mem c hx))]

/-- Every character of the output of `sanitize_filename` is allowed. -/
theorem sanitize_mem_allowed (s : String) :
    ∀ c ∈ (sanitize_filename s).data, allowedChar c = true := by
  intro c hc
  have hd : (sanitize_filename s).data
      = s.data.map (fun c => if allowedChar c then c else '_') := rfl
  rw [hd] at hc
  rcases List.mem_map.mp hc with ⟨a, _, rfl⟩
  by_cases h : allowedChar a = true
  · simp [h]
  · simp [h]
    decide

/-- Sanitizing a string whose characters are all allowed is the
identity. -/
theorem sanitize_clean {s : String} (h : ∀ c ∈ s.data, allowedChar c = true) :
    sanitize_filename s = s := by
  apply str_ext
  have hd : (sanitize_filename s).data
      = s.data.map (fun c => if allowedChar c then c else '_') := rfl
  rw [hd]
  exact map_id_of_mem (fun c hc => by rw [h c hc]; rfl)

/-! ### Regex-search lemmas -/

theorem matchAt_nil (i : Nat) : matchAt [] i = false := by
  have h : "cluster_".data.isPrefixOf ([] : List Char) = false := rfl
  simp [matchAt, List.drop_nil, h]

theorem matchAt_succ (c : Char) (cs : List Char) (i : Nat) :
    matchAt (c :: cs) (i + 1) = matchAt cs i := by
  have h8 : i + 1 + 8 = (i + 8) + 1 := by omega
  simp [matchAt, h8, List.drop_succ_cons]

theorem matchAt_ge (l : List Char) (i : Nat) (h : l.length ≤ i) : matchAt l i = false := by
  have h1 : List.drop i l = [] := List.drop_eq_nil_of_le h
  have h2 : List.drop (i + 8) l = [] := List.drop_eq_nil_of_le (by omega)
  have h3 : "cluster_".data.isPrefixOf ([] : List Char) = false := rfl
  simp [matchAt, h1, h2, h3]

theorem clusterSearch_cons (c : Char) (cs : List Char) :
    clusterSearch (c :: cs) =
      if matchAt (c :: cs) 0 = true then some (digitRun (List.drop 8 (c :: cs)))
      else clusterSearch cs := rfl

theorem clusterSearch_some_of_first :
    ∀ (l : List Char) (i : Nat), matchAt l i = true →
      (∀ j, j < i → matchAt l j = false) →
      clusterSearch l = some (digitRun (List.drop (i + 8) l)) := by
  intro l
  induction l with
  | nil => intro i h _; rw [matchAt_nil] at h; cases h
  | cons c cs ih =>
    intro i h hfirst
    cases i with
    | zero =>
      rw [clusterSearch_cons, if_pos h]
    | succ j =>
      have h0 : matchAt (c :: cs) 0 = false := hfirst 0 (Nat.succ_pos j)
      have hj : matchAt cs j = true := by rw [← matchAt_succ c cs j]; exact h
      have hjfirst : ∀ k, k < j → matchAt cs k = false := fun k hk => by
        rw [← matchAt_succ c cs k]; exact hfirst (k + 1) (Nat.succ_lt_succ hk)
      have h8 : j + 1 + 8 = (j + 8) + 1 := by omega
      rw [clusterSearch_cons, if_neg (by rw [h0]; exact Bool.false_ne_true),
        ih j hj hjfirst, h8, List.drop_succ_cons]

theorem clusterSearch_none_of_no_match :
    ∀ l : List Char, (∀ i, matchAt l i = false) → clusterSearch l = none := by
  intro l
  induction l with
  | nil => intro _; rfl
  | cons c cs ih =>
    intro h
    rw [clusterSearch_cons, if_neg (by rw [h 0]; exact Bool.false_ne_true)]
    exact ih (fun i => by rw [← matchAt_succ c cs i]; exact h (i + 1))

/-- C5: for every sequence identifier containing the literal substring
`cluster_` immediately followed by digits, the derived cluster number
equals the digit run at the first such occurrence; for every other
identifier it equals the sentinel `"unknown"`. -/
theorem cluster_number_spec :
    (∀ (s : String) (i : Nat), matchAt s.data i = true →
      (∀ j, j < i → matchAt s.data j = false) →
      cluster_number s = String.mk (digitRun (s.data.drop (i + 8)))) ∧
    (∀ s : String, (∀ i, i < s.data.length → matchAt s.data i = false) →
      cluster_number s = "unknown") := by
  constructor
  · intro s i h hfirst
    unfold cluster_number
    rw [clusterSearch_some_of_first s.data i h hfirst]
  · intro s h
    unfold cluster_number
    rw [clusterSearch_none_of_no_match s.data (fun i => by
      rcases Nat.lt_or_ge i s.data.length with hlt | hge
      · exact h i hlt
      · exact matchAt_ge s.data i hge)]

/-- Witness for C5 at the identifiers `"ab_cluster_42x"` (match at
position 3, digit run `42`) and `"medoid"` (no match). -/
theorem cluster_number_spec_witness :
    cluster_number "ab_cluster_42x" = "42" ∧ cluster_number "medoid" = "unknown" :=
  ⟨cluster_number_spec.1 "ab_cluster_42x" 3 (by decide) (by decide),
   cluster_number_spec.2 "medoid" (by decide)⟩

/-- C9: `sanitize_filename` is idempotent, and every character of its
output lies in the class `[A-Za-z0-9_.-]`. -/
theorem sanitize_idempotent_and_valid (s : String) :
    sanitize_filename (sanitize_filename s) = sanitize_filename s ∧
    ∀ c ∈ (sanitize_filename s).data, allowedChar c = true :=
  ⟨sanitize_clean (sanitize_mem_allowed s), sanitize_mem_allowed s⟩

/-- Witness for C9 at the candidate filename `"a b:c.cif"`. -/
theorem sanitize_idempotent_and_valid_witness :
    sanitize_filename (sanitize_filename "a b:c.cif") = sanitize_filename "a b:c.cif" ∧
    ('_' ∈ (sanitize_filename "a b:c.cif").data → allowedChar '_' = true) :=
  ⟨(sanitize_idempotent_and_valid "a b:c.cif").1,
   fun h => (sanitize_idempotent_and_valid "a b:c.cif").2 '_' h⟩

/-! ### Decimal rendering lemmas -/

theorem digitVal_digitChar {k : Nat} (h : k < 10) : digitVal (digitChar k) = k := by
  interval_cases k <;> decide

theorem isDigit_digitChar (n : Nat) : (digitChar n).isDigit = true := by
  have h : n % 10 < 10 := Nat.mod_lt n (by norm_num)
  unfold digitChar
  revert h
  generalize n % 10 = k
  intro h
  interval_cases k <;> decide

theorem natDigitsCore_digits :
    ∀ (fuel n : Nat), ∀ c ∈ natDigitsCore fuel n, c.isDigit = true := by
  intro fuel
  induction fuel with
  | zero => intro n c hc; simp [natDigitsCore] at hc
  | succ f ih =>
    intro n c hc
    have he : natDigitsCore (f + 1) n
        = if n < 10 then [digitChar n]
          else natDigitsCore f (n / 10) ++ [digitChar (n % 10)] := rfl
    by_cases h : n < 10
    · rw [he, if_pos h] at hc
      rw [List.mem_singleton.mp hc]
      exact isDigit_digitChar n
    · rw [he, if_neg h] at hc
      rcases List.mem_append.mp hc with h1 | h1
      · exact ih (n / 10) c h1
      · rw [List.mem_singleton.mp h1]
        exact isDigit_digitChar (n % 10)

theorem digitsVal_append_singleton (xs : List Char) (c : Char) :
    digitsVal (xs ++ [c]) = digitsVal xs * 10 + digitVal c := by
  unfold digitsVal
  rw [List.foldl_append]
  rfl

theorem digitsVal_natDigitsCore :
    ∀ (fuel n : Nat), n < fuel → digitsVal (natDigitsCore fuel n) = n := by
  intro fuel
  induction fuel with
  | zero => intro n h; omega
  | succ f ih =>
    intro n h
    have he : natDigitsCore (f + 1) n
        = if n < 10 then [digitChar n]
          else natDigitsCore f (n / 10) ++ [digitChar (n % 10)] := rfl
    by_cases h10 : n < 10
    · rw [he, if_pos h10]
      have h1 : digitsVal [digitChar n] = 0 * 10 + digitVal (digitChar n) := rfl
      rw [h1, digitVal_digitChar h10]
      omega
    · rw [he, if_neg h10, digitsVal_append_singleton]
      have hdiv : n / 10 < f := by
        have h1 : n / 10 < n := Nat.div_lt_self (by omega) (by norm_num)
        omega
      rw [ih (n / 10) hdiv, digitVal_digitChar (Nat.mod_lt n (by norm_num))]
      omega

theorem digitsVal_natDigits (n : Nat) : digitsVal (natDigits n) = n :=
  digitsVal_natDigitsCore (n + 1) n (Nat.lt_succ_self n)

theorem digitsVal_replicate_zero (k : Nat) (l : List Char) :
    digitsVal (List.replicate k '0' ++ l) = digitsVal l := by
  induction k with
  | zero => rfl
  | succ m ih =>
    have h1 : List.replicate (m + 1) '0' ++ l = '0' :: (List.replicate m '0' ++ l) := by
      simp [List.replicate_succ]
    rw [h1]
    show List.foldl (fun a c => a * 10 + digitVal c) ((0 : Nat) * 10 + digitVal '0')
      (List.replicate m '0' ++ l) = digitsVal l
    have h0 : (0 : Nat) * 10 + digitVal '0' = 0 := by decide
    rw [h0]
    exact ih

theorem digitsVal_pad3 (n : Nat) : digitsVal (pad3 n).data = n := by
  have hd : (pad3 n).data
      = List.replicate (3 - (natDigits n).length) '0' ++ natDigits n := rfl
  rw [hd, digitsVal_replicate_zero, digitsVal_natDigits]

theorem pad3_inj {n1 n2 : Nat} (h : pad3 n1 = pad3 n2) : n1 = n2 := by
  have h1 := congrArg (fun s : String => digitsVal s.data) h
  simp only [digitsVal_pad3] at h1
  exact h1

theorem allowed_of_isDigit {c : Char} (h : c.isDigit = true) : allowedChar c = true := by
  unfold allowedChar
  rw [h]
  simp

theorem pad3_allowed (n : Nat) : ∀ c ∈ (pad3 n).data, allowedChar c = true := by
  intro c hc
  have hd : (pad3 n).data
      = List.replicate (3 - (natDigits n).length) '0' ++ natDigits n := rfl
  rw [hd] at hc
  rcases List.mem_append.mp hc with h1 | h1
  · rw [List.eq_of_mem_replicate h1]
    decide
  · exact allowed_of_isDigit (natDigitsCore_digits (n + 1) n c h1)

/-! ### Cluster number and path lemmas -/

theorem digitRun_digit : ∀ {l : List Char} {c : Char}, c ∈ digitRun l → c.isDigit = true := by
  intro l
  induction l with
  | nil => intro c hc; simp [digitRun] at hc
  | cons a as ih =>
    intro c hc
    have he : digitRun (a :: as) = if a.isDigit = true then a :: digitRun as else [] := rfl
    by_cases ha : a.isDigit = true
    · rw [he, if_pos ha] at hc
      rcases List.mem_cons.mp hc with rfl | h1
      · exact ha
      · exact ih h1
    · rw [he, if_neg ha] at hc
      simp at hc

theorem clusterSearch_digits :
    ∀ {l run : List Char}, clusterSearch l = some run → ∀ c ∈ run, c.isDigit = true := by
  intro l
  induction l with
  | nil => intro run h; exact absurd h (by simp [clusterSearch])
  | cons a as ih =>
    intro run h c hc
    rw [clusterSearch_cons] at h
    by_cases h0 : matchAt (a :: as) 0 = true
    · rw [if_pos h0] at h
      rw [← Option.some.inj h] at hc
      exact digitRun_digit hc
    · rw [if_neg h0] at h
      exact ih h c hc

theorem cluster_number_allowed (s : String) :
    ∀ c ∈ (cluster_number s).data, allowedChar c = true := by
  intro c hc
  unfold cluster_number at hc
  cases h : clusterSearch s.data with
  | none =>
    rw [h] at hc
    have hall : ∀ x ∈ ("unknown" : String).data, allowedChar x = true := by decide
    exact hall c hc
  | some run =>
    rw [h] at hc
    exact allowed_of_isDigit (clusterSearch_digits h c hc)

theorem string_allowed_append {a b : String} (ha : ∀ c ∈ a.data, allowedChar c = true)
    (hb : ∀ c ∈ b.data, allowedChar c = true) :
    ∀ c ∈ (a ++ b).data, allowedChar c = true := by
  intro c hc
  rw [data_append] at hc
  rcases List.mem_append.mp hc with h | h
  · exact ha c h
  · exact hb c h

theorem sub_folder_ext_cases (t : String) :
    sub_folder_ext t = ("CIF", ".cif") ∨ sub_folder_ext t = ("PDB", ".pdb") := by
  unfold sub_folder_ext
  split
  · exact Or.inl rfl
  · exact Or.inr rfl

/-- The sanitization in `safe_filename` is the identity: every
character of the constructed basename is already allowed. -/
theorem safe_filename_eq (seq_id : String) (n : Nat) (t : String) :
    safe_filename seq_id n t
      = "cluster_" ++ cluster_number seq_id ++ "_model_" ++ pad3 n ++ (sub_folder_ext t).2 := by
  unfold safe_filename
  apply sanitize_clean
  apply string_allowed_append
  · apply string_allowed_append
    · apply string_allowed_append
      · apply string_allowed_append
        · decide
        · exact cluster_number_allowed seq_id
      · decide
    · exact pad3_allowed n
  · rcases sub_folder_ext_cases t with h | h <;> rw [h] <;> decide

theorem fetchLoop_cons (s : String) (j : Nat) (m : ModelEntry) (l : List ModelEntry) :
    fetchLoop s j (m :: l)
      = (match m.modelcif_url with
         | some u => [⟨s, u, j, "modelcif"⟩]
         | none => []) ++
        (match m.coordinates_url with
         | some u => [⟨s, u, j, "coordinates"⟩]
         | none => []) ++
        fetchLoop s (j + 1) l := rfl

theorem fetchLoop_append (s : String) :
    ∀ (xs ys : List ModelEntry) (i : Nat),
      fetchLoop s i (xs ++ ys) = fetchLoop s i xs ++ fetchLoop s (i + xs.length) ys := by
  intro xs
  induction xs with
  | nil => intro ys i; simp [fetchLoop]
  | cons m ms ih =>
    intro ys i
    rw [List.cons_append, fetchLoop_cons, fetchLoop_cons, ih ys (i + 1)]
    have h1 : i + 1 + ms.length = i + (m :: ms).length := by
      simp [List.length_cons]
      omega
    rw [h1]
    simp [List.append_assoc]

/-- C7: a manifest entry carrying both a structure-file URL and a
coordinate-file URL at model index `i` contributes exactly two artifact
refs, one per kind; the two artifacts land in the CIF and PDB
subfolders of the cluster folder, under the basename
`cluster_<N>_model_<i zero-padded to 3 digits>` with extension `.cif`
or `.pdb`; and the padding maps 1, 23, 104 to 001, 023, 104. -/
theorem fetch_refs_and_paths (seq_id out_dir : String) (pre post : List ModelEntry)
    (m : ModelEntry) (u1 u2 : String)
    (h1 : m.modelcif_url = some u1) (h2 : m.coordinates_url = some u2) :
    fetch_model_results seq_id (pre ++ m :: post)
      = fetchLoop seq_id 1 pre
        ++ [⟨seq_id, u1, pre.length + 1, "modelcif"⟩,
            ⟨seq_id, u2, pre.length + 1, "coordinates"⟩]
        ++ fetchLoop seq_id (pre.length + 2) post
    ∧ dest_path out_dir seq_id (pre.length + 1) "modelcif"
        = out_dir ++ "/" ++ ("cluster_" ++ cluster_number seq_id ++ "_model") ++ "/" ++ "CIF"
          ++ "/" ++ ("cluster_" ++ cluster_number seq_id ++ "_model_" ++ pad3 (pre.length + 1)
            ++ ".cif")
    ∧ dest_path out_dir seq_id (pre.length + 1) "coordinates"
        = out_dir ++ "/" ++ ("cluster_" ++ cluster_number seq_id ++ "_model") ++ "/" ++ "PDB"
          ++ "/" ++ ("cluster_" ++ cluster_number seq_id ++ "_model_" ++ pad3 (pre.length + 1)
            ++ ".pdb")
    ∧ pad3 1 = "001" ∧ pad3 23 = "023" ∧ pad3 104 = "104" := by
  refine ⟨?_, ?_, ?_, by decide, by decide, by decide⟩
  · unfold fetch_model_results
    rw [fetchLoop_append seq_id pre (m :: post) 1, Nat.add_comm 1 pre.length,
      fetchLoop_cons, h1, h2]
    simp [List.append_assoc]
  · unfold dest_path cluster_folder
    rw [safe_filename_eq]
    have hs : sub_folder_ext "modelcif" = ("CIF", ".cif") := by decide
    rw [hs]
  · unfold dest_path cluster_folder
    rw [safe_filename_eq]
    have hs : sub_folder_ext "coordinates" = ("PDB", ".pdb") := by decide
    rw [hs]

/-- Witness for C7: a one-entry manifest for `"cluster_7_x"` with both
URLs at model index 1. -/
theorem fetch_refs_and_paths_witness :
    fetch_model_results "cluster_7_x" [⟨some "uc", some "up"⟩]
      = fetchLoop "cluster_7_x" 1 []
        ++ [⟨"cluster_7_x", "uc", 1, "modelcif"⟩, ⟨"cluster_7_x", "up", 1, "coordinates"⟩]
        ++ fetchLoop "cluster_7_x" 2 []
    ∧ dest_path "o" "cluster_7_x" 1 "modelcif"
        = "o" ++ "/" ++ ("cluster_" ++ cluster_number "cluster_7_x" ++ "_model") ++ "/" ++ "CIF"
          ++ "/" ++ ("cluster_" ++ cluster_number "cluster_7_x" ++ "_model_" ++ pad3 1 ++ ".cif")
    ∧ dest_path "o" "cluster_7_x" 1 "coordinates"
        = "o" ++ "/" ++ ("cluster_" ++ cluster_number "cluster_7_x" ++ "_model") ++ "/" ++ "PDB"
          ++ "/" ++ ("cluster_" ++ cluster_number "cluster_7_x" ++ "_model_" ++ pad3 1 ++ ".pdb")
    ∧ pad3 1 = "001" ∧ pad3 23 = "023" ∧ pad3 104 = "104" :=
  fetch_refs_and_paths "cluster_7_x" "o" [] [] ⟨some "uc", some "up"⟩ "uc" "up" rfl rfl

/-! ### Job monitor -/

theorem monitor_cons_response (j : StatusJson) (rest : List PollResult) :
    monitor_job_status (PollResult.response j :: rest)
      = if get_status j = "COMPLETED" ∨ get_status j = "FAILED" then
          some (if get_status j = "COMPLETED" then some j else none)
        else monitor_job_status rest := rfl

/-- C6: the monitor returns the manifest exactly on COMPLETED (every
returned manifest was observed COMPLETED, and a COMPLETED poll returns
it at once), returns no result on FAILED, treats a missing status
string as UNKNOWN and any status other than the two terminal ones as
non-terminal (polls again), and on a transport failure retries on the
next tick instead of abandoning the job. -/
theorem monitor_job_status_spec :
    (∀ (j : StatusJson) (rest : List PollResult), get_status j = "COMPLETED" →
      monitor_job_status (PollResult.response j :: rest) = some (some j)) ∧
    (∀ (j : StatusJson) (rest : List PollResult), get_status j = "FAILED" →
      monitor_job_status (PollResult.response j :: rest) = some none) ∧
    (∀ (j : StatusJson) (rest : List PollResult),
      get_status j ≠ "COMPLETED" → get_status j ≠ "FAILED" →
      monitor_job_status (PollResult.response j :: rest) = monitor_job_status rest) ∧
    (∀ rest : List PollResult,
      monitor_job_status (PollResult.exception :: rest) = monitor_job_status rest) ∧
    (∀ j : StatusJson, j.status? = none → get_status j = "UNKNOWN") ∧
    (∀ (polls : List PollResult) (j : StatusJson),
      monitor_job_status polls = some (some j) → get_status j = "COMPLETED") := by
  refine ⟨?_, ?_, ?_, ?_, ?_, ?_⟩
  · intro j rest h
    rw [monitor_cons_response, h]
    simp
  · intro j rest h
    rw [monitor_cons_response, h]
    simp
  · intro j rest h1 h2
    rw [monitor_cons_response, if_neg (not_or.mpr ⟨h1, h2⟩)]
  · intro rest
    rfl
  · intro j h
    unfold get_status
    rw [h]
    rfl
  · intro polls
    induction polls with
    | nil => intro j h; exact absurd h (by simp [monitor_job_status])
    | cons p rest ih =>
      intro j h
      cases p with
      | exception => exact ih j h
      | response j2 =>
        rw [monitor_cons_response] at h
        by_cases hc : get_status j2 = "COMPLETED" ∨ get_status j2 = "FAILED"
        · rw [if_pos hc] at h
          by_cases hcc : get_status j2 = "COMPLETED"
          · rw [if_pos hcc] at h
            rw [← Option.some.inj (Option.some.inj h)]
            exact hcc
          · rw [if_neg hcc] at h
            exact absurd (Option.some.inj h) (by simp)
        · rw [if_neg hc] at h
          exact ih j h

/-- Witness for C6 at concrete status bodies: COMPLETED, FAILED, a
missing status read as UNKNOWN (non-terminal), and a transport
failure. -/
theorem monitor_job_status_spec_witness :
    monitor_job_status [PollResult.response ⟨some "COMPLETED", []⟩]
      = some (some ⟨some "COMPLETED", []⟩)
    ∧ monitor_job_status [PollResult.response ⟨some "FAILED", []⟩] = some none
    ∧ monitor_job_status [PollResult.response ⟨none, []⟩] = monitor_job_status []
    ∧ monitor_job_status [PollResult.exception] = monitor_job_status []
    ∧ get_status ⟨none, []⟩ = "UNKNOWN"
    ∧ get_status ⟨some "COMPLETED", []⟩ = "COMPLETED" :=
  ⟨monitor_job_status_spec.1 ⟨some "COMPLETED", []⟩ [] rfl,
   monitor_job_status_spec.2.1 ⟨some "FAILED", []⟩ [] rfl,
   monitor_job_status_spec.2.2.1 ⟨none, []⟩ [] (by decide) (by decide),
   monitor_job_status_spec.2.2.2.1 [],
   monitor_job_status_spec.2.2.2.2.1 ⟨none, []⟩ rfl,
   monitor_job_status_spec.2.2.2.2.2 [PollResult.response ⟨some "COMPLETED", []⟩]
     ⟨some "COMPLETED", []⟩ (by decide)⟩

/-! ### Submission retry loop -/

theorem submitLoop_succ (s : String) (resp : Nat → AttemptResult) (a f : Nat) :
    submitLoop s resp a (f + 1)
      = if a ≤ 5 then
          match resp a with
          | AttemptResult.rateLimited =>
            ((submitLoop s resp (a + 1) f).1, a * 10 :: (submitLoop s resp (a + 1) f).2)
          | AttemptResult.exception => (SubmitReturn.tuple s none, [])
          | AttemptResult.ok pid => (SubmitReturn.tuple s pid, [])
        else (SubmitReturn.pyNone, []) := rfl

theorem submitLoop_rateLimited (s : String) (resp : Nat → AttemptResult) (a f : Nat)
    (ha : a ≤ 5) (hr : resp a = AttemptResult.rateLimited) :
    submitLoop s resp a (f + 1)
      = ((submitLoop s resp (a + 1) f).1, a * 10 :: (submitLoop s resp (a + 1) f).2) := by
  rw [submitLoop_succ, if_pos ha, hr]

theorem submitLoop_exception (s : String) (resp : Nat → AttemptResult) (a f : Nat)
    (ha : a ≤ 5) (hr : resp a = AttemptResult.exception) :
    submitLoop s resp a (f + 1) = (SubmitReturn.tuple s none, []) := by
  rw [submitLoop_succ, if_pos ha, hr]

/-- C8: an attempt that fails with a transport-level error other than
HTTP 429 (after `k` rate-limited attempts, any `k ≤ 4`) is terminal:
no further attempt and no further sleep happens, the call returns the
tuple with no project identifier, and the orchestrator loop processes
that result without raising. -/
theorem submit_no_retry_on_error (seq_id : String) (resp : Nat → AttemptResult) (k : Nat)
    (hk : k ≤ 4) (h429 : ∀ j, 1 ≤ j → j ≤ k → resp j = AttemptResult.rateLimited)
    (herr : resp (k + 1) = AttemptResult.exception) :
    submit_request seq_id resp
      = (SubmitReturn.tuple seq_id none, (List.range k).map (fun j => (j + 1) * 10))
    ∧ process_loop [(submit_request seq_id resp).1] = Except.ok [seq_id] := by
  have hmain : submit_request seq_id resp
      = (SubmitReturn.tuple seq_id none, (List.range k).map (fun j => (j + 1) * 10)) := by
    have hentry : submit_request seq_id resp = submitLoop seq_id resp 1 6 := rfl
    interval_cases k
    · rw [hentry, submitLoop_exception seq_id resp 1 5 (by norm_num) herr]
      rfl
    · rw [hentry,
        submitLoop_rateLimited seq_id resp 1 5 (by norm_num) (h429 1 (by norm_num) (by norm_num)),
        submitLoop_exception seq_id resp 2 4 (by norm_num) herr]
      rfl
    · rw [hentry,
        submitLoop_rateLimited seq_id resp 1 5 (by norm_num) (h429 1 (by norm_num) (by norm_num)),
        submitLoop_rateLimited seq_id resp 2 4 (by norm_num) (h429 2 (by norm_num) (by norm_num)),
        submitLoop_exception seq_id resp 3 3 (by norm_num) herr]
      rfl
    · rw [hentry,
        submitLoop_rateLimited seq_id resp 1 5 (by norm_num) (h429 1 (by norm_num) (by norm_num)),
        submitLoop_rateLimited seq_id resp 2 4 (by norm_num) (h429 2 (by norm_num) (by norm_num)),
        submitLoop_rateLimited seq_id resp 3 3 (by norm_num) (h429 3 (by norm_num) (by norm_num)),
        submitLoop_exception seq_id resp 4 2 (by norm_num) herr]
      rfl
    · rw [hentry,
        submitLoop_rateLimited seq_id resp 1 5 (by norm_num) (h429 1 (by norm_num) (by norm_num)),
        submitLoop_rateLimited seq_id resp 2 4 (by norm_num) (h429 2 (by norm_num) (by norm_num)),
        submitLoop_rateLimited seq_id resp 3 3 (by norm_num) (h429 3 (by norm_num) (by norm_num)),
        submitLoop_rateLimited seq_id resp 4 2 (by norm_num) (h429 4 (by norm_num) (by norm_num)),
        submitLoop_exception seq_id resp 5 1 (by norm_num) herr]
      rfl
  refine ⟨hmain, ?_⟩
  rw [hmain]
  rfl

/-- Witness for C8: the first attempt raises a `RequestException`. -/
theorem submit_no_retry_on_error_witness :
    submit_request "B" (fun _ => AttemptResult.exception)
      = (SubmitReturn.tuple "B" none, (List.range 0).map (fun j => (j + 1) * 10))
    ∧ process_loop [(submit_request "B" (fun _ => AttemptResult.exception)).1]
      = Except.ok ["B"] :=
  submit_no_retry_on_error "B" (fun _ => AttemptResult.exception) 0 (by norm_num)
    (fun j hj1 hj0 => absurd (Nat.le_trans hj1 hj0) (by norm_num)) rfl

/-- C1 (code bug): when every attempt receives HTTP 429 the loop does
back off with the strictly increasing waits 10, 20, 30, 40, 50 and
stops after 5 attempts, but the call then falls off the function and
returns Python `None` instead of a `(seq_id, None)` tuple; the
orchestrator loop raises a `TypeError` unpacking it and the remaining
sequences (here `cluster_2_b`) are never processed — the failure is
fatal to the run, not the non-fatal `SubmissionResult` the spec
describes. -/
theorem submit_rate_limit_crash :
    submit_request "cluster_1_a" (fun _ => AttemptResult.rateLimited)
      = (SubmitReturn.pyNone, [10, 20, 30, 40, 50])
    ∧ List.Pairwise (fun a b => a < b) ([10, 20, 30, 40, 50] : List Nat)
    ∧ process_loop [(submit_request "cluster_1_a" (fun _ => AttemptResult.rateLimited)).1,
        SubmitReturn.tuple "cluster_2_b" (some "proj")]
      = Except.error "TypeError: cannot unpack non-iterable NoneType object" :=
  ⟨by decide, by decide, rfl⟩

/-! ### Orchestrator loop structure -/

theorem main_loop_trace_cons (s : String) (pid : Option String) (b : Bool)
    (rest : List (String × Option String × Bool)) :
    main_loop_trace ((s, pid, b) :: rest)
      = (match pid with
         | none => []
         | some _ => Stage.monitor s :: (if b then [Stage.fetch s] else [])) ++
        main_loop_trace rest := rfl

/-- C2 counterexample: the callable handed to the pool performs only
the submission, not the whole submit-monitor-fetch pipeline; and with
two successful sequences, every monitor/fetch stage of the
first-completed sequence precedes every stage of the second in the one
orchestrator thread, so the post-submission pipelines are ordered, not
independent. -/
theorem pooled_task_only_submits_cex :
    pooled_task_stages "A" ≠ [Stage.submit "A", Stage.monitor "A", Stage.fetch "A"]
    ∧ main_loop_trace [("A", some "p1", true), ("B", some "p2", true)]
      = [Stage.monitor "A", Stage.fetch "A", Stage.monitor "B", Stage.fetch "B"] :=
  ⟨by decide, by decide⟩

/-- C2 amended: each pooled task performs only the submit stage, and
the monitor/fetch stages run sequentially on the main thread in
completion order — each sequence's monitor and fetch form one
contiguous segment of the trace, fully serialized between sequences. -/
theorem main_loop_serializes (pre post : List (String × Option String × Bool))
    (c : String × Option String × Bool) :
    main_loop_trace (pre ++ c :: post)
      = main_loop_trace pre ++ main_loop_trace [c] ++ main_loop_trace post
    ∧ ∀ s : String, pooled_task_stages s = [Stage.submit s] := by
  constructor
  · induction pre with
    | nil =>
      obtain ⟨s, pid, b⟩ := c
      rw [List.nil_append, main_loop_trace_cons, main_loop_trace_cons]
      simp [main_loop_trace]
    | cons p ps ih =>
      obtain ⟨s2, pid2, b2⟩ := p
      rw [List.cons_append, main_loop_trace_cons, main_loop_trace_cons, ih]
      simp [List.append_assoc]
  · intro s
    rfl

/-! ### Download and extraction -/

/-- C3 (code bug): for a gzip source URL the constructed local filename
still ends in `.cif`, so the decompression branch (which tests the
local filename, not the URL) is never taken and the raw gzip bytes
(here the gzip magic `31, 139, 8`) are written directly to the final
filename. -/
theorem gzip_branch_dead_at_gz_url :
    ends_with "https://x/model_01.cif.gz" ".gz" = true
    ∧ dest_path "out" "cluster_3_medoid" 1 "modelcif"
      = "out/cluster_3_model/CIF/cluster_3_model_001.cif"
    ∧ ends_with (dest_path "out" "cluster_3_medoid" 1 "modelcif") ".gz" = false
    ∧ (download_and_extract (fun _ => []) "out" ⟨[], fun _ => none⟩
        ⟨"cluster_3_medoid", "https://x/model_01.cif.gz", 1, "modelcif"⟩
        (some [31, 139, 8])).files "out/cluster_3_model/CIF/cluster_3_model_001.cif"
      = some [31, 139, 8] :=
  ⟨by decide, by decide, by decide, by decide⟩

/-- C10: when the HTTP download fails the file map is unchanged — the
destination is opened for writing only after a successful download —
while a successful download does write the downloaded bytes at the
destination path. -/
theorem download_failure_leaves_files (gunzip : List Nat → List Nat) (out_dir : String)
    (fs : FS) (r : Ref) (content : List Nat) :
    (download_and_extract gunzip out_dir fs r none).files = fs.files
    ∧ (ends_with (dest_path out_dir r.seq_id r.model_number r.file_type) ".gz" = false →
        (download_and_extract gunzip out_dir fs r (some content)).files
          (dest_path out_dir r.seq_id r.model_number r.file_type) = some content) := by
  constructor
  · rfl
  · intro h
    unfold download_and_extract
    simp only [h]
    simp

/-- Witness for C10 at a concrete failed and successful download. -/
theorem download_failure_leaves_files_witness :
    (download_and_extract (fun l => l) "o" ⟨[], fun _ => none⟩
      ⟨"cluster_3_a", "u", 1, "modelcif"⟩ none).files = (fun _ => none)
    ∧ (download_and_extract (fun l => l) "o" ⟨[], fun _ => none⟩
        ⟨"cluster_3_a", "u", 1, "modelcif"⟩ (some [1, 2])).files
        (dest_path "o" "cluster_3_a" 1 "modelcif") = some [1, 2] :=
  ⟨(download_failure_leaves_files (fun l => l) "o" ⟨[], fun _ => none⟩
      ⟨"cluster_3_a", "u", 1, "modelcif"⟩ [1, 2]).1,
   (download_failure_leaves_files (fun l => l) "o" ⟨[], fun _ => none⟩
      ⟨"cluster_3_a", "u", 1, "modelcif"⟩ [1, 2]).2 (by decide)⟩

/-! ### Destination-path uniqueness -/

theorem path_tail_inj {n1 n2 : Nat} {e : List Char}
    (h : (pad3 n1).data ++ e = (pad3 n2).data ++ e) : n1 = n2 := by
  have hlen := congrArg List.length h
  simp only [List.length_append] at hlen
  have hp : (pad3 n1).data.length = (pad3 n2).data.length := by omega
  have hinj := List.append_inj h hp
  have hv := congrArg digitsVal hinj.1
  rw [digitsVal_pad3, digitsVal_pad3] at hv
  exact hv

/-- C4 counterexample: two downloads of one run, from the distinct
sequence identifiers `cluster_3_a` and `cluster_3_b` at the same model
index and kind, write to the same destination path in the same
cluster/kind subfolder. -/
theorem same_cluster_path_collision :
    dest_path "out" "cluster_3_a" 1 "modelcif" = dest_path "out" "cluster_3_b" 1 "modelcif"
    ∧ "cluster_3_a" ≠ "cluster_3_b" :=
  ⟨by decide, by decide⟩

/-- C4 amended: within one sequence (more generally, for equal derived
cluster numbers) the destination path determines the model index and
the artifact kind — so all downloads of a single sequence's fetch, which
have pairwise distinct (index, kind) pairs, write pairwise distinct
paths — while sequences with equal derived cluster numbers write to
identical paths at equal index and kind, which is the only way
uniqueness across one run fails. -/
theorem dest_path_uniqueness_amended :
    (∀ (out s : String) (n1 n2 : Nat) (t1 t2 : String),
      (t1 = "modelcif" ∨ t1 = "coordinates") → (t2 = "modelcif" ∨ t2 = "coordinates") →
      dest_path out s n1 t1 = dest_path out s n2 t2 → n1 = n2 ∧ t1 = t2) ∧
    (∀ (out s1 s2 : String) (n : Nat) (t : String),
      cluster_number s1 = cluster_number s2 →
      dest_path out s1 n t = dest_path out s2 n t) := by
  constructor
  · intro out s n1 n2 t1 t2 ht1 ht2 heq
    unfold dest_path cluster_folder at heq
    rw [safe_filename_eq s n1 t1, safe_filename_eq s n2 t2] at heq
    have h1 := congrArg String.data heq
    simp only [data_append, List.append_assoc] at h1
    iterate 6 replace h1 := List.append_cancel_left h1
    rcases ht1 with rfl | rfl <;> rcases ht2 with rfl | rfl
    · refine ⟨?_, rfl⟩
      iterate 5 replace h1 := List.append_cancel_left h1
      exact path_tail_inj h1
    · exfalso
      have e1 : ((sub_folder_ext "modelcif").1).data = ['C', 'I', 'F'] := rfl
      have e2 : ((sub_folder_ext "coordinates").1).data = ['P', 'D', 'B'] := rfl
      rw [e1, e2] at h1
      injection h1 with hc _
      exact absurd hc (by decide)
    · exfalso
      have e1 : ((sub_folder_ext "modelcif").1).data = ['C', 'I', 'F'] := rfl
      have e2 : ((sub_folder_ext "coordinates").1).data = ['P', 'D', 'B'] := rfl
      rw [e1, e2] at h1
      injection h1 with hc _
      exact absurd hc (by decide)
    · refine ⟨?_, rfl⟩
      iterate 5 replace h1 := List.append_cancel_left h1
      exact path_tail_inj h1
  · intro out s1 s2 n t h
    unfold dest_path cluster_folder
    rw [safe_filename_eq s1 n t, safe_filename_eq s2 n t, h]

/-- Witness for C4 amended: equal paths of one sequence force equal
index and kind, and two same-cluster sequences share a path. -/
theorem dest_path_uniqueness_amended_witness :
    ((1 : Nat) = 1 ∧ ("modelcif" : String) = "modelcif") ∧
    dest_path "o" "cluster_5_a" 2 "coordinates" = dest_path "o" "cluster_5_b" 2 "coordinates" :=
  ⟨dest_path_uniqueness_amended.1 "o" "cluster_5_a" 1 1 "modelcif" "modelcif"
      (Or.inl rfl) (Or.inl rfl) rfl,
   dest_path_uniqueness_amended.2 "o" "cluster_5_a" "cluster_5_b" 2 "coordinates" (by decide)⟩

end SMB
